import Mathlib

/-!
Shallow embedding of the CableForge core engines
(`src-tauri/src/calculations/mod.rs` and `src-tauri/src/validation/mod.rs`).

Rust `f64` values are modelled as exact rationals (`ℚ`); all constants in
the source are short decimal literals, so every arithmetic expression the
claims mention is exact.  Rust `String` is modelled as Lean `String`;
`str::to_uppercase` / `char::is_whitespace` are modelled at ASCII level,
which covers every string the engines construct or compare.
`HashMap` grouping is modelled by filtering; where the source iterates a
`HashMap` (unspecified order) the iteration order is an explicit parameter.
-/

namespace CableForge

/-- ASCII upper-casing of one character (model of `str::to_uppercase` on the
ASCII inputs the engine handles); 97–122 are the codes of a–z. -/
def asciiUpperChar (c : Char) : Char :=
  if 97 ≤ c.toNat ∧ c.toNat ≤ 122 then Char.ofNat (c.toNat - 32) else c

/-- ASCII lower-casing of one character (used by `eq_ignore_ascii_case`);
65–90 are the codes of A–Z. -/
def asciiLowerChar (c : Char) : Char :=
  if 65 ≤ c.toNat ∧ c.toNat ≤ 90 then Char.ofNat (c.toNat + 32) else c

/-- Whitespace test used by `str::trim` (ASCII whitespace: space, tab,
newline, carriage return). -/
def isWsChar (c : Char) : Bool :=
  c.toNat = 32 ∨ c.toNat = 9 ∨ c.toNat = 10 ∨ c.toNat = 13

/-- Model of `str::trim`: drop whitespace from both ends. -/
def trimChars (l : List Char) : List Char :=
  ((l.dropWhile isWsChar).reverse.dropWhile isWsChar).reverse

/-- `leadsWith pat l` is true when `pat` occurs at the very start of `l`. -/
def leadsWith : List Char → List Char → Bool
  | [], _ => true
  | _ :: _, [] => false
  | a :: as, b :: bs => a = b && leadsWith as bs

/-- `containsSub pat l`: `pat` occurs contiguously somewhere in `l`
(model of `str::contains` with a string pattern). -/
def containsSub (pat : List Char) : List Char → Bool
  | [] => pat.isEmpty
  | c :: t => leadsWith pat (c :: t) || containsSub pat t

/-- `strContainsSub hay needle` models Rust `hay.contains(needle)`. -/
def strContainsSub (hay needle : String) : Bool :=
  containsSub needle.data hay.data

/-- Model of `str::trim` on `String`. -/
def strTrim (s : String) : String := ⟨trimChars s.data⟩

/-- Model of `size.to_uppercase().trim().to_string()`. -/
def strUpperTrim (s : String) : String := ⟨trimChars (s.data.map asciiUpperChar)⟩

/-- Model of `str::eq_ignore_ascii_case`. -/
def eqIgnoreAsciiCase (a b : String) : Bool :=
  a.data.map asciiLowerChar = b.data.map asciiLowerChar

/-- ASCII digit test; 48–57 are the codes of 0–9. -/
def isDigitChar (c : Char) : Bool := 48 ≤ c.toNat ∧ c.toNat ≤ 57

/-- Value of a digit string (used to model the `i32` range check of
`str::parse::<i32>`). -/
def digitsToNat (l : List Char) : Nat :=
  l.foldl (fun n c => n * 10 + (c.toNat - 48)) 0

/-- Model of `s.parse::<i32>().is_ok()`: an optional sign followed by at
least one ASCII digit, with the value inside the `i32` range. -/
def parseI32Ok (l : List Char) : Bool :=
  match l with
  | [] => false
  | c :: rest =>
    if c = '+' then
      !rest.isEmpty && rest.all isDigitChar && decide (digitsToNat rest ≤ 2147483647)
    else if c = '-' then
      !rest.isEmpty && rest.all isDigitChar && decide (digitsToNat rest ≤ 2147483648)
    else
      (c :: rest).all isDigitChar && decide (digitsToNat (c :: rest) ≤ 2147483647)

/-! ## Calculations module (`calculations/mod.rs`) -/

/-- `enum ConductorMaterial`. -/
inductive ConductorMaterial
  | Copper
  | Aluminum
deriving DecidableEq

/-- `struct VoltageDropCalculation`. -/
structure VoltageDropCalculation where
  voltage : ℚ
  current : ℚ
  distance : ℚ
  conductor_size : String
  material : ConductorMaterial
  power_factor : ℚ
  number_of_conductors : Int
deriving DecidableEq

/-- `enum VoltageDropSeverity`. -/
inductive VoltageDropSeverity
  | Good
  | Warning
  | Error
deriving DecidableEq

/-- `struct VoltageDropResult`. -/
structure VoltageDropResult where
  voltage_drop_volts : ℚ
  voltage_drop_percentage : ℚ
  line_to_line_voltage_drop : ℚ
  severity : VoltageDropSeverity
  compliance_status : String
deriving DecidableEq

/-- The fixed table built in `ElectricalCalculator::new()`:
size string ↦ (copper Ω/1000 ft, aluminum Ω/1000 ft). -/
def conductor_resistance : List (String × ℚ × ℚ) :=
  [ ("18 AWG", 7.77, 12.8)
  , ("16 AWG", 4.89, 8.05)
  , ("14 AWG", 3.07, 5.06)
  , ("12 AWG", 1.93, 3.18)
  , ("10 AWG", 1.21, 2.00)
  , ("8 AWG", 0.764, 1.26)
  , ("6 AWG", 0.491, 0.808)
  , ("4 AWG", 0.308, 0.508)
  , ("3 AWG", 0.245, 0.403)
  , ("2 AWG", 0.194, 0.319)
  , ("1 AWG", 0.154, 0.253)
  , ("1/0 AWG", 0.122, 0.201)
  , ("2/0 AWG", 0.0967, 0.159)
  , ("3/0 AWG", 0.0766, 0.126)
  , ("4/0 AWG", 0.0608, 0.100)
  , ("250 MCM", 0.0515, 0.0847)
  , ("300 MCM", 0.0429, 0.0707)
  , ("350 MCM", 0.0367, 0.0605)
  , ("400 MCM", 0.0321, 0.0529)
  , ("500 MCM", 0.0258, 0.0424)
  , ("600 MCM", 0.0214, 0.0353)
  , ("750 MCM", 0.0171, 0.0282)
  , ("1000 MCM", 0.0129, 0.0212) ]

/-- `ElectricalCalculator::normalize_conductor_size`. -/
def normalize_conductor_size (size : String) : String :=
  let size_upper := strUpperTrim size
  if strContainsSub size_upper "AWG" then
    size_upper
  else if strContainsSub size_upper "MCM" then
    size_upper
  else if strContainsSub size_upper "#" then
    (⟨trimChars (size_upper.data.filter (fun c => c ≠ '#'))⟩ : String) ++ " AWG"
  else if parseI32Ok size_upper.data then
    size_upper ++ " AWG"
  else
    size_upper

/-- `ElectricalCalculator::get_conductor_resistance`. -/
def get_conductor_resistance (size : String) (material : ConductorMaterial) :
    Except String ℚ :=
  match conductor_resistance.lookup (normalize_conductor_size size) with
  | some (copper_r, aluminum_r) =>
    .ok (match material with
         | .Copper => copper_r
         | .Aluminum => aluminum_r)
  | none => .error ("Unknown conductor size: " ++ size)

/-- The severity classification of `calculate_voltage_drop`. -/
def severityOfPercentage (voltage_drop_percentage : ℚ) : VoltageDropSeverity :=
  if voltage_drop_percentage ≤ 3 then .Good
  else if voltage_drop_percentage ≤ 5 then .Warning
  else .Error

/-- The `compliance_status` string chosen per severity in
`calculate_voltage_drop`. -/
def complianceStatusOf : VoltageDropSeverity → String
  | .Good => "Compliant with NEC recommendations (≤3%)"
  | .Warning => "Acceptable but high (3-5%, consider larger conductor)"
  | .Error => "Exceeds NEC recommendations (>5%, larger conductor required)"

/-- `ElectricalCalculator::calculate_voltage_drop`. -/
def calculate_voltage_drop (calcIn : VoltageDropCalculation) :
    Except String VoltageDropResult :=
  match get_conductor_resistance calcIn.conductor_size calcIn.material with
  | .error e => .error e
  | .ok resistance =>
    let distance_factor := calcIn.distance / 1000
    let circuit_factor : ℚ := 2
    let pf_factor := if calcIn.power_factor > 0 then calcIn.power_factor else 0.85
    let voltage_drop_volts :=
      circuit_factor * calcIn.current * distance_factor * resistance * pf_factor
    let voltage_drop_percentage := voltage_drop_volts / calcIn.voltage * 100
    let severity := severityOfPercentage voltage_drop_percentage
    let compliance_status := complianceStatusOf severity
    .ok { voltage_drop_volts := voltage_drop_volts
        , voltage_drop_percentage := voltage_drop_percentage
        , line_to_line_voltage_drop := voltage_drop_volts
        , severity := severity
        , compliance_status := compliance_status }

/-- The material-specific ordered size list of
`calculate_minimum_conductor_size` (largest first, as in the source). -/
def sizesFor : ConductorMaterial → List String
  | .Copper =>
    [ "1000 MCM", "750 MCM", "600 MCM", "500 MCM", "400 MCM", "350 MCM"
    , "300 MCM", "250 MCM", "4/0 AWG", "3/0 AWG", "2/0 AWG", "1/0 AWG"
    , "1 AWG", "2 AWG", "3 AWG", "4 AWG", "6 AWG", "8 AWG", "10 AWG"
    , "12 AWG", "14 AWG", "16 AWG", "18 AWG" ]
  | .Aluminum =>
    [ "1000 MCM", "750 MCM", "600 MCM", "500 MCM", "400 MCM", "350 MCM"
    , "300 MCM", "250 MCM", "4/0 AWG", "3/0 AWG", "2/0 AWG", "1/0 AWG"
    , "1 AWG", "2 AWG", "3 AWG", "4 AWG", "6 AWG", "8 AWG", "10 AWG"
    , "12 AWG" ]

/-- The `for size in sizes` loop body of `calculate_minimum_conductor_size`:
return the first size whose computed drop is within `max_voltage_drop`. -/
def minSizeLoop (voltage current distance : ℚ) (material : ConductorMaterial)
    (power_factor max_voltage_drop : ℚ) : List String → Except String String
  | [] => .error "No standard conductor size meets the voltage drop requirement"
  | size :: rest =>
    match calculate_voltage_drop
        { voltage := voltage, current := current, distance := distance
        , conductor_size := size, material := material
        , power_factor := power_factor, number_of_conductors := 2 } with
    | .ok result =>
      if result.voltage_drop_volts ≤ max_voltage_drop then .ok size
      else minSizeLoop voltage current distance material power_factor
        max_voltage_drop rest
    | .error _ =>
      minSizeLoop voltage current distance material power_factor
        max_voltage_drop rest

/-- `ElectricalCalculator::calculate_minimum_conductor_size`. -/
def calculate_minimum_conductor_size (voltage current distance : ℚ)
    (material : ConductorMaterial) (max_voltage_drop_percent power_factor : ℚ) :
    Except String String :=
  let max_voltage_drop := voltage * (max_voltage_drop_percent / 100)
  minSizeLoop voltage current distance material power_factor max_voltage_drop
    (sizesFor material)

/-- `ElectricalCalculator::calculate_current_from_power`. -/
def calculate_current_from_power (power_watts voltage power_factor : ℚ)
    (phases : Int) : ℚ :=
  if phases = 1 then power_watts / (voltage * power_factor)
  else if phases = 3 then power_watts / (voltage * 1.732 * power_factor)
  else power_watts / (voltage * power_factor)

/-! ## Validation module (`validation/mod.rs`) -/

/-- `struct Cable` (`database/models.rs`), restricted to the fields the
validation engine reads; the remaining fields are never consulted by any
function modelled here. -/
structure Cable where
  id : Option Int
  tag : String
  function : Option String
  voltage : Option ℚ
  length : Option ℚ
  spare_percentage : Option ℚ
  route : Option String
  segregation_class : Option String
deriving DecidableEq

/-- `enum ValidationSeverity`. -/
inductive ValidationSeverity
  | Error
  | Warning
  | Info
deriving DecidableEq

/-- `enum ValidationType`. -/
inductive ValidationType
  | DuplicateTag
  | SegregationViolation
  | RequiredField
  | InvalidValue
  | NecCompliance
deriving DecidableEq

/-- `struct ValidationResult`. -/
structure ValidationResult where
  cable_id : Option Int
  cable_tag : String
  severity : ValidationSeverity
  validation_type : ValidationType
  message : String
  field : Option String
  suggested_fix : Option String
  override_allowed : Bool
deriving DecidableEq

/-- `struct ValidationSummary`; `validation_time : chrono::DateTime<Utc>`
is modelled as an integer timestamp. -/
structure ValidationSummary where
  total_cables : Nat
  error_count : Nat
  warning_count : Nat
  info_count : Nat
  results : List ValidationResult
  validation_time : Int
deriving DecidableEq

/-- `CableValidator::validate_required_fields`. -/
def validate_required_fields (cable : Cable) : List ValidationResult :=
  if (trimChars cable.tag.data).isEmpty then
    [ { cable_id := cable.id
      , cable_tag := cable.tag
      , severity := .Error
      , validation_type := .RequiredField
      , message := "Cable tag is required"
      , field := some "tag"
      , suggested_fix := some "Enter a unique cable tag (e.g., C-001)"
      , override_allowed := false } ]
  else []

/-- The single result `validate_duplicate_tag` pushes when duplicates exist. -/
def duplicateTagResult (cable : Cable) : ValidationResult :=
  { cable_id := cable.id
  , cable_tag := cable.tag
  , severity := .Error
  , validation_type := .DuplicateTag
  , message := "Duplicate cable tag \x27" ++ cable.tag ++ "\x27 found"
  , field := some "tag"
  , suggested_fix := some "Change to unique tag or use auto-numbering"
  , override_allowed := true }

/-- `CableValidator::validate_duplicate_tag`. -/
def validate_duplicate_tag (cable : Cable) (all_cables : List Cable) :
    List ValidationResult :=
  if (trimChars cable.tag.data).isEmpty then []
  else
    let duplicates := all_cables.filter (fun other =>
      eqIgnoreAsciiCase other.tag cable.tag && decide (other.id ≠ cable.id))
    if duplicates.isEmpty then [] else [duplicateTagResult cable]

/-- `CableValidator::validate_field_formats`. -/
def validate_field_formats (cable : Cable) : List ValidationResult :=
  (match cable.voltage with
   | some voltage =>
     if voltage < 0 ∨ voltage > 35000 then
       [ { cable_id := cable.id
         , cable_tag := cable.tag
         , severity := .Warning
         , validation_type := .InvalidValue
         , message := "Voltage outside typical range (0-35kV)"
         , field := some "voltage"
         , suggested_fix := some "Verify voltage rating is correct"
         , override_allowed := true } ]
     else []
   | none => []) ++
  (match cable.length with
   | some length =>
     if length < 0 then
       [ { cable_id := cable.id
         , cable_tag := cable.tag
         , severity := .Error
         , validation_type := .InvalidValue
         , message := "Cable length cannot be negative"
         , field := some "length"
         , suggested_fix := some "Enter a positive length value"
         , override_allowed := false } ]
     else if length > 10000 then
       [ { cable_id := cable.id
         , cable_tag := cable.tag
         , severity := .Warning
         , validation_type := .InvalidValue
         , message := "Cable length is unusually long (>10,000 ft)"
         , field := some "length"
         , suggested_fix := some "Verify length is correct"
         , override_allowed := true } ]
     else []
   | none => []) ++
  (match cable.spare_percentage with
   | some spare_pct =>
     if spare_pct < 0 ∨ spare_pct > 100 then
       [ { cable_id := cable.id
         , cable_tag := cable.tag
         , severity := .Warning
         , validation_type := .InvalidValue
         , message := "Spare percentage should be between 0-100%"
         , field := some "spare_percentage"
         , suggested_fix := some "Enter percentage as 0-100 (e.g., 10 for 10%)"
         , override_allowed := true } ]
     else []
   | none => [])

/-- `CableValidator::validate_cable`. -/
def validate_cable (cable : Cable) (all_cables : List Cable) :
    List ValidationResult :=
  validate_required_fields cable ++
  validate_duplicate_tag cable all_cables ++
  validate_field_formats cable

/-- The filter predicate of `power_cables` in
`check_power_signal_separation`. -/
def isPowerCable (c : Cable) : Bool :=
  match c.function with
  | some f => f = "Power" ∨ f = "Lighting"
  | none => false

/-- The filter predicate of `signal_cables` in
`check_power_signal_separation`. -/
def isSignalCable (c : Cable) : Bool :=
  match c.function with
  | some f => f = "Signal" ∨ f = "Control" ∨ f = "Communication"
  | none => false

/-- The result pushed per affected cable by `check_power_signal_separation`. -/
def powerSignalResult (route : String) (cable : Cable) : ValidationResult :=
  { cable_id := cable.id
  , cable_tag := cable.tag
  , severity := .Warning
  , validation_type := .SegregationViolation
  , message := "Power and signal cables in same route \x27" ++ route ++
      "\x27 (NEC 725.136)"
  , field := some "route"
  , suggested_fix :=
      some "Separate power and signal cables into different conduits per NEC"
  , override_allowed := true }

/-- `CableValidator::check_power_signal_separation`. -/
def check_power_signal_separation (route : String) (cables : List Cable) :
    List ValidationResult :=
  let power_cables := cables.filter isPowerCable
  let signal_cables := cables.filter isSignalCable
  if !power_cables.isEmpty && !signal_cables.isEmpty then
    (power_cables ++ signal_cables).map (powerSignalResult route)
  else []

/-- The voltage-class name assigned in `check_voltage_level_separation`. -/
def voltageClassOf (voltage : ℚ) : String :=
  if voltage ≤ 50 then "Low Voltage (<50V)"
  else if voltage ≤ 600 then "Medium Voltage (50-600V)"
  else if voltage ≤ 1000 then "High Voltage (600-1000V)"
  else "Extra High Voltage (>1000V)"

/-- `voltage_groups.contains_key(cls)`: some cable with a voltage in the
group falls in class `cls` (cables without a voltage are not bucketed). -/
def hasVoltageClass (cables : List Cable) (cls : String) : Bool :=
  cables.any (fun c => c.voltage.any (fun v => voltageClassOf v = cls))

/-- `voltage_groups.len()`: the number of distinct voltage classes present. -/
def voltageGroupCount (cables : List Cable) : Nat :=
  (([ "Low Voltage (<50V)", "Medium Voltage (50-600V)"
    , "High Voltage (600-1000V)", "Extra High Voltage (>1000V)"
    ] : List String).filter (hasVoltageClass cables)).length

/-- The result pushed per cable by `check_voltage_level_separation`. -/
def voltageLevelResult (route : String) (cable : Cable) : ValidationResult :=
  { cable_id := cable.id
  , cable_tag := cable.tag
  , severity := .Error
  , validation_type := .SegregationViolation
  , message := "Low voltage and high voltage cables in same route \x27" ++
      route ++ "\x27 (NEC 300.3)"
  , field := some "route"
  , suggested_fix :=
      some "Separate low voltage (<50V) from high voltage (>600V) cables"
  , override_allowed := true }

/-- `CableValidator::check_voltage_level_separation`. -/
def check_voltage_level_separation (route : String) (cables : List Cable) :
    List ValidationResult :=
  if voltageGroupCount cables > 1 then
    let has_low := hasVoltageClass cables "Low Voltage (<50V)"
    let has_high := hasVoltageClass cables "High Voltage (600-1000V)" ||
      hasVoltageClass cables "Extra High Voltage (>1000V)"
    if has_low && has_high then
      cables.map (voltageLevelResult route)
    else []
  else []

/-- `class_groups[cls]`: the cables of the group whose `segregation_class`
equals `cls` exactly (in group order). -/
def classGroup (cables : List Cable) (cls : String) : List Cable :=
  cables.filter (fun c => c.segregation_class = some cls)

/-- The `incompatible_pairs` array of `check_segregation_class_conflicts`. -/
def incompatible_pairs : List (String × String) :=
  [ ("IS Signal", "Non-IS Signal")
  , ("IS Signal", "Power 120VAC")
  , ("IS Signal", "Power 240VAC")
  , ("IS Signal", "Power 480VAC")
  , ("IS Signal", "Power 600VAC")
  , ("Control Power 24VDC", "Power 480VAC")
  , ("Control Power 24VDC", "Power 600VAC") ]

/-- The result pushed per affected cable by
`check_segregation_class_conflicts`. -/
def segClassConflictResult (route class1 class2 : String) (cable : Cable) :
    ValidationResult :=
  { cable_id := cable.id
  , cable_tag := cable.tag
  , severity := .Error
  , validation_type := .SegregationViolation
  , message := "Incompatible segregation classes \x27" ++ class1 ++
      "\x27 and \x27" ++ class2 ++ "\x27 in route \x27" ++ route ++ "\x27"
  , field := some "segregation_class"
  , suggested_fix := some ("Separate " ++ class1 ++ " from " ++ class2 ++
      " cables")
  , override_allowed := true }

/-- `CableValidator::check_segregation_class_conflicts`. -/
def check_segregation_class_conflicts (route : String) (cables : List Cable) :
    List ValidationResult :=
  incompatible_pairs.flatMap (fun p =>
    if !(classGroup cables p.1).isEmpty && !(classGroup cables p.2).isEmpty then
      ((classGroup cables p.1) ++ (classGroup cables p.2)).map
        (segClassConflictResult route p.1 p.2)
    else [])

/-- The filter predicate of `is_cables` in
`check_intrinsic_safety_separation`: the `segregation_class` text contains
the substring "IS". -/
def isIntrinsicallySafe (c : Cable) : Bool :=
  match c.segregation_class with
  | some sc => strContainsSub sc "IS"
  | none => false

/-- The filter predicate of `non_is_cables` in
`check_intrinsic_safety_separation`. -/
def isNonISCable (c : Cable) : Bool :=
  (match c.segregation_class with
   | some sc => !strContainsSub sc "IS"
   | none => false) || c.segregation_class.isNone

/-- The result pushed per cable by `check_intrinsic_safety_separation`. -/
def intrinsicSafetyResult (route : String) (cable : Cable) : ValidationResult :=
  { cable_id := cable.id
  , cable_tag := cable.tag
  , severity := .Error
  , validation_type := .SegregationViolation
  , message := "Intrinsically safe and non-IS cables in same route \x27" ++
      route ++ "\x27 (NEC 504.30)"
  , field := some "segregation_class"
  , suggested_fix := some "IS cables must be separated from all non-IS circuits"
  , override_allowed := false }

/-- `CableValidator::check_intrinsic_safety_separation`. -/
def check_intrinsic_safety_separation (route : String) (cables : List Cable) :
    List ValidationResult :=
  let is_cables := cables.filter isIntrinsicallySafe
  let non_is_cables := cables.filter isNonISCable
  if !is_cables.isEmpty && !non_is_cables.isEmpty then
    (is_cables ++ non_is_cables).map (intrinsicSafetyResult route)
  else []

/-- `CableValidator::check_route_segregation`. -/
def check_route_segregation (route : String) (cables : List Cable) :
    List ValidationResult :=
  check_power_signal_separation route cables ++
  check_voltage_level_separation route cables ++
  check_segregation_class_conflicts route cables ++
  check_intrinsic_safety_separation route cables

/-- The route key under which `validate_segregation_rules` files a cable:
its `route`, provided the trimmed text is nonempty. -/
def activeRoute (c : Cable) : Option String :=
  match c.route with
  | some route => if (trimChars route.data).isEmpty then none else some route
  | none => none

/-- `route_groups[r]`: the cables filed under route key `r`, in input
order (insertion order of the `Vec` in the source). -/
def routeGroup (cables : List Cable) (r : String) : List Cable :=
  cables.filter (fun c => activeRoute c = some r)

/-- The set of keys of `route_groups`, listed in first-insertion order. -/
def routeKeys (cables : List Cable) : List String :=
  cables.foldl (fun ks c =>
    match activeRoute c with
    | some r => if r ∈ ks then ks else ks ++ [r]
    | none => ks) []

/-- `CableValidator::validate_segregation_rules`.  The source iterates the
`route_groups` `HashMap`, whose order is unspecified; `order` makes that
iteration order explicit (any permutation of `routeKeys cables`). -/
def validate_segregation_rules (cables : List Cable) (order : List String) :
    List ValidationResult :=
  order.flatMap (fun r =>
    let group := routeGroup cables r
    if group.length > 1 then check_route_segregation r group else [])

/-- `CableValidator::validate_all_cables`.  `order` is the `HashMap`
iteration order over route groups and `now` the value `chrono::Utc::now()`
returns during the call; both are explicit model parameters because the
source draws them from the environment. -/
def validate_all_cables (cables : List Cable) (order : List String)
    (now : Int) : ValidationSummary :=
  let all_results :=
    cables.flatMap (fun cable => validate_cable cable cables) ++
    validate_segregation_rules cables order
  { total_cables := cables.length
  , error_count := all_results.countP (fun r => r.severity = .Error)
  , warning_count := all_results.countP (fun r => r.severity = .Warning)
  , info_count := all_results.countP (fun r => r.severity = .Info)
  , results := all_results
  , validation_time := now }

/-! ## Helper lemmas -/

/-- Shape of a successful `calculate_voltage_drop` run: once the resistance
lookup yields `ρ`, every output field is determined. -/
theorem calculate_voltage_drop_ok (calcIn : VoltageDropCalculation) (ρ : ℚ)
    (h : get_conductor_resistance calcIn.conductor_size calcIn.material =
      Except.ok ρ) :
    calculate_voltage_drop calcIn = Except.ok
      { voltage_drop_volts := 2 * calcIn.current * (calcIn.distance / 1000) *
          ρ * (if calcIn.power_factor > 0 then calcIn.power_factor else 0.85)
      , voltage_drop_percentage := 2 * calcIn.current * (calcIn.distance / 1000) *
          ρ * (if calcIn.power_factor > 0 then calcIn.power_factor else 0.85) /
          calcIn.voltage * 100
      , line_to_line_voltage_drop := 2 * calcIn.current * (calcIn.distance / 1000) *
          ρ * (if calcIn.power_factor > 0 then calcIn.power_factor else 0.85)
      , severity := severityOfPercentage
          (2 * calcIn.current * (calcIn.distance / 1000) *
           ρ * (if calcIn.power_factor > 0 then calcIn.power_factor else 0.85) /
           calcIn.voltage * 100)
      , compliance_status := complianceStatusOf (severityOfPercentage
          (2 * calcIn.current * (calcIn.distance / 1000) *
           ρ * (if calcIn.power_factor > 0 then calcIn.power_factor else 0.85) /
           calcIn.voltage * 100)) } := by
  unfold calculate_voltage_drop
  rw [h]

/-- Inversion for a successful `calculate_voltage_drop` run: the percentage
is volts over nominal voltage times 100, and the severity is the threshold
classification of that percentage. -/
theorem calculate_voltage_drop_ok_inv (calcIn : VoltageDropCalculation)
    (res : VoltageDropResult)
    (h : calculate_voltage_drop calcIn = Except.ok res) :
    res.voltage_drop_percentage =
      res.voltage_drop_volts / calcIn.voltage * 100 ∧
    res.severity = severityOfPercentage res.voltage_drop_percentage := by
  unfold calculate_voltage_drop at h
  cases hr : get_conductor_resistance calcIn.conductor_size calcIn.material with
  | error e => rw [hr] at h; exact absurd h (by simp)
  | ok ρ =>
    rw [hr] at h
    simp only [Except.ok.injEq] at h
    subst h
    exact ⟨rfl, rfl⟩

/-- A successful `minSizeLoop` run returned a size from the list whose
computed voltage drop is within `max_voltage_drop`. -/
theorem minSizeLoop_ok (voltage current distance : ℚ)
    (material : ConductorMaterial) (power_factor max_voltage_drop : ℚ)
    (sizes : List String) (size : String)
    (h : minSizeLoop voltage current distance material power_factor
      max_voltage_drop sizes = Except.ok size) :
    ∃ res, calculate_voltage_drop
        { voltage := voltage, current := current, distance := distance
        , conductor_size := size, material := material
        , power_factor := power_factor, number_of_conductors := 2 } =
        Except.ok res ∧
      res.voltage_drop_volts ≤ max_voltage_drop := by
  induction sizes with
  | nil => exact absurd h (by simp [minSizeLoop])
  | cons s rest ih =>
    rw [minSizeLoop] at h
    cases hc : calculate_voltage_drop
        { voltage := voltage, current := current, distance := distance
        , conductor_size := s, material := material
        , power_factor := power_factor, number_of_conductors := 2 } with
    | error e => rw [hc] at h; exact ih h
    | ok r =>
      rw [hc] at h
      dsimp only at h
      by_cases hle : r.voltage_drop_volts ≤ max_voltage_drop
      · rw [if_pos hle] at h
        simp only [Except.ok.injEq] at h
        subst h
        exact ⟨r, hc, hle⟩
      · rw [if_neg hle] at h
        exact ih h

/-- Concrete run of the sizing routine: for 120 V, 20 A, 100 ft, copper,
3 % budget, 0.85 power factor the loop already accepts its first
candidate, 1000 MCM. -/
theorem min_size_example :
    calculate_minimum_conductor_size 120 20 100 .Copper 3 0.85 =
      Except.ok "1000 MCM" := by
  have h := calculate_voltage_drop_ok
    { voltage := 120, current := 20, distance := 100
    , conductor_size := "1000 MCM", material := .Copper
    , power_factor := 0.85, number_of_conductors := 2 } 0.0129 (by rfl)
  unfold calculate_minimum_conductor_size sizesFor
  rw [minSizeLoop, h]
  dsimp only
  norm_num

/-- Concrete voltage-drop run for 8 AWG copper at 120 V, 20 A, 100 ft,
0.85 power factor: the drop stays within the 3 % budget of 3.6 V. -/
theorem eight_awg_within_budget :
    ∃ res, calculate_voltage_drop
        { voltage := 120, current := 20, distance := 100
        , conductor_size := "8 AWG", material := .Copper
        , power_factor := 0.85, number_of_conductors := 2 } =
        Except.ok res ∧
      res.voltage_drop_volts ≤ 120 * (3 / 100) := by
  refine ⟨_, calculate_voltage_drop_ok _ 0.764 (by rfl), ?_⟩
  dsimp only
  norm_num

/-- The threshold classification of `severityOfPercentage`, each severity
characterised by its exact percentage band. -/
theorem severityOfPercentage_spec (p : ℚ) :
    (severityOfPercentage p = .Good ↔ p ≤ 3) ∧
    (severityOfPercentage p = .Warning ↔ 3 < p ∧ p ≤ 5) ∧
    (severityOfPercentage p = .Error ↔ 5 < p) := by
  unfold severityOfPercentage
  split_ifs with h1 h2 <;> refine ⟨?_, ?_, ?_⟩ <;> simp <;>
    first
      | (constructor <;> linarith)
      | (intros; linarith)

/-! ## Claim theorems -/

/-- C1 (code bug): `calculate_minimum_conductor_size` is specified to
return the smallest adequate standard size, but the source iterates its
size list from largest to smallest and returns the first within-budget
entry, i.e. the largest adequate size.  At 120 V, 20 A, 100 ft, copper,
3 % budget, 0.85 power factor it returns "1000 MCM" even though the much
smaller "8 AWG" (also on the ordered list) already keeps the drop within
the 3.6 V budget. -/
theorem C1_min_size_returns_largest_adequate :
    calculate_minimum_conductor_size 120 20 100 .Copper 3 0.85 =
      Except.ok "1000 MCM" ∧
    (∃ res, calculate_voltage_drop
        { voltage := 120, current := 20, distance := 100
        , conductor_size := "8 AWG", material := .Copper
        , power_factor := 0.85, number_of_conductors := 2 } =
        Except.ok res ∧
      res.voltage_drop_volts ≤ 120 * (3 / 100)) ∧
    "8 AWG" ∈ sizesFor .Copper :=
  ⟨min_size_example, eight_awg_within_budget, by decide⟩

/-- C2: whenever the conductor size resolves in the resistance table,
`calculate_voltage_drop` succeeds with
`drop_volts = 2 · current · (distance/1000) · ρ · pf` where `pf` is the
supplied power factor if positive and 0.85 otherwise (no upper bound
check), `drop_percent = drop_volts / voltage · 100`, and severity is Good
iff the percentage is ≤ 3, Warning iff it is in (3, 5], Error iff it
exceeds 5. -/
theorem C2_voltage_drop_formula (calcIn : VoltageDropCalculation) (ρ : ℚ)
    (h : get_conductor_resistance calcIn.conductor_size calcIn.material =
      Except.ok ρ) :
    ∃ res, calculate_voltage_drop calcIn = Except.ok res ∧
      res.voltage_drop_volts = 2 * calcIn.current * (calcIn.distance / 1000) *
        ρ * (if calcIn.power_factor > 0 then calcIn.power_factor else 0.85) ∧
      res.voltage_drop_percentage =
        res.voltage_drop_volts / calcIn.voltage * 100 ∧
      (res.severity = .Good ↔ res.voltage_drop_percentage ≤ 3) ∧
      (res.severity = .Warning ↔
        3 < res.voltage_drop_percentage ∧ res.voltage_drop_percentage ≤ 5) ∧
      (res.severity = .Error ↔ 5 < res.voltage_drop_percentage) := by
  refine ⟨_, calculate_voltage_drop_ok calcIn ρ h, rfl, rfl, ?_, ?_, ?_⟩
  · exact (severityOfPercentage_spec _).1
  · exact (severityOfPercentage_spec _).2.1
  · exact (severityOfPercentage_spec _).2.2

/-- Witness for C2 at 120 V, 20 A, 100 ft, "12 AWG", copper, power factor
0.85. -/
theorem C2_witness :
    ∃ res, calculate_voltage_drop
        { voltage := 120, current := 20, distance := 100
        , conductor_size := "12 AWG", material := .Copper
        , power_factor := 0.85, number_of_conductors := 2 } =
        Except.ok res ∧
      res.voltage_drop_volts = 2 * 20 * (100 / 1000) *
        1.93 * (if (0.85 : ℚ) > 0 then 0.85 else 0.85) ∧
      res.voltage_drop_percentage = res.voltage_drop_volts / 120 * 100 ∧
      (res.severity = .Good ↔ res.voltage_drop_percentage ≤ 3) ∧
      (res.severity = .Warning ↔
        3 < res.voltage_drop_percentage ∧ res.voltage_drop_percentage ≤ 5) ∧
      (res.severity = .Error ↔ 5 < res.voltage_drop_percentage) :=
  C2_voltage_drop_formula
    { voltage := 120, current := 20, distance := 100
    , conductor_size := "12 AWG", material := .Copper
    , power_factor := 0.85, number_of_conductors := 2 } 1.93 (by rfl)

/-- C9: if `calculate_minimum_conductor_size` succeeds with a positive
voltage and a requested maximum drop of at most 3 %, feeding the returned
size back into `calculate_voltage_drop` with the same parameters succeeds
and classifies as Good. -/
theorem C9_round_trip (voltage current distance : ℚ)
    (material : ConductorMaterial)
    (max_voltage_drop_percent power_factor : ℚ) (size : String)
    (hv : 0 < voltage) (hmax : max_voltage_drop_percent ≤ 3)
    (hok : calculate_minimum_conductor_size voltage current distance material
      max_voltage_drop_percent power_factor = Except.ok size) :
    ∃ res, calculate_voltage_drop
        { voltage := voltage, current := current, distance := distance
        , conductor_size := size, material := material
        , power_factor := power_factor, number_of_conductors := 2 } =
        Except.ok res ∧
      res.severity = .Good := by
  unfold calculate_minimum_conductor_size at hok
  obtain ⟨res, hres, hle⟩ := minSizeLoop_ok _ _ _ _ _ _ _ _ hok
  refine ⟨res, hres, ?_⟩
  obtain ⟨hpct, hsev⟩ := calculate_voltage_drop_ok_inv _ _ hres
  have hvne : voltage ≠ 0 := ne_of_gt hv
  have hple : res.voltage_drop_percentage ≤ max_voltage_drop_percent := by
    rw [hpct]
    have h2 : res.voltage_drop_volts * (100 / voltage) ≤
        voltage * (max_voltage_drop_percent / 100) * (100 / voltage) :=
      mul_le_mul_of_nonneg_right hle (by positivity)
    calc res.voltage_drop_volts / voltage * 100
        = res.voltage_drop_volts * (100 / voltage) := by ring
      _ ≤ voltage * (max_voltage_drop_percent / 100) * (100 / voltage) := h2
      _ = max_voltage_drop_percent := by field_simp
  rw [hsev]
  exact (severityOfPercentage_spec _).1.mpr (by linarith)

/-- Witness for C9: the 120 V / 20 A / 100 ft / copper / 3 % / 0.85 run
returns "1000 MCM", and feeding it back yields severity Good. -/
theorem C9_witness :
    ∃ res, calculate_voltage_drop
        { voltage := 120, current := 20, distance := 100
        , conductor_size := "1000 MCM", material := .Copper
        , power_factor := 0.85, number_of_conductors := 2 } =
        Except.ok res ∧
      res.severity = .Good :=
  C9_round_trip 120 20 100 .Copper 3 0.85 "1000 MCM" (by norm_num)
    (by norm_num) min_size_example

/-- The two filter predicates of `check_intrinsic_safety_separation` are
complementary: a cable is a non-IS cable exactly when it is not deemed
intrinsically safe. -/
theorem isNonISCable_eq_not (c : Cable) :
    isNonISCable c = !isIntrinsicallySafe c := by
  unfold isNonISCable isIntrinsicallySafe
  cases c.segregation_class <;> simp

/-- C4: whenever a route group mixes a cable whose `segregation_class`
contains "IS" with one whose class lacks "IS" or is absent, the
intrinsic-safety check flags every cable of the group with severity
Error; and every result this check ever produces has
`override_allowed = false`. -/
theorem C4_intrinsic_safety_separation :
    (∀ (route : String) (cables : List Cable) (r : ValidationResult),
       r ∈ check_intrinsic_safety_separation route cables →
       r.severity = .Error ∧ r.override_allowed = false) ∧
    (∀ (route : String) (cables : List Cable),
       (∃ c ∈ cables, isIntrinsicallySafe c = true) →
       (∃ c ∈ cables, isIntrinsicallySafe c = false) →
       ∀ c ∈ cables, intrinsicSafetyResult route c ∈
         check_intrinsic_safety_separation route cables) := by
  constructor
  · intro route cables r hr
    unfold check_intrinsic_safety_separation at hr
    dsimp only at hr
    split at hr
    · obtain ⟨c, _, rfl⟩ := List.mem_map.mp hr
      exact ⟨rfl, rfl⟩
    · simp at hr
  · rintro route cables ⟨a, ha, hais⟩ ⟨b, hb, hbnot⟩ c hc
    have hamem : a ∈ cables.filter isIntrinsicallySafe :=
      List.mem_filter.mpr ⟨ha, hais⟩
    have hbmem : b ∈ cables.filter isNonISCable :=
      List.mem_filter.mpr ⟨hb, by rw [isNonISCable_eq_not, hbnot]; rfl⟩
    unfold check_intrinsic_safety_separation
    rw [if_pos]
    · refine List.mem_map.mpr ⟨c, List.mem_append.mpr ?_, rfl⟩
      cases hcis : isIntrinsicallySafe c with
      | true => exact Or.inl (List.mem_filter.mpr ⟨hc, hcis⟩)
      | false =>
        exact Or.inr (List.mem_filter.mpr ⟨hc, by
          rw [isNonISCable_eq_not, hcis]; rfl⟩)
    · cases h1 : (cables.filter isIntrinsicallySafe).isEmpty with
      | true => rw [List.isEmpty_iff.mp h1] at hamem; simp at hamem
      | false =>
        cases h2 : (cables.filter isNonISCable).isEmpty with
        | true => rw [List.isEmpty_iff.mp h2] at hbmem; simp at hbmem
        | false => rfl

/-- Witness for C4 at a concrete two-cable group: an "IS Signal" cable and
a cable without a segregation class. -/
theorem C4_witness :
    intrinsicSafetyResult "R"
      ⟨some 1, "A", none, none, none, none, some "R", some "IS Signal"⟩ ∈
      check_intrinsic_safety_separation "R"
        [ ⟨some 1, "A", none, none, none, none, some "R", some "IS Signal"⟩
        , ⟨some 2, "B", none, none, none, none, some "R", none⟩ ] :=
  C4_intrinsic_safety_separation.2 "R"
    [ ⟨some 1, "A", none, none, none, none, some "R", some "IS Signal"⟩
    , ⟨some 2, "B", none, none, none, none, some "R", none⟩ ]
    ⟨⟨some 1, "A", none, none, none, none, some "R", some "IS Signal"⟩,
      by decide, by decide⟩
    ⟨⟨some 2, "B", none, none, none, none, some "R", none⟩,
      by decide, by decide⟩
    ⟨some 1, "A", none, none, none, none, some "R", some "IS Signal"⟩
    (by decide)

/-- C10: because "Non-IS Signal" contains the substring "IS", a route
group in which every cable's `segregation_class` contains "IS" produces no
intrinsic-safety results at all; the "IS Signal" / "Non-IS Signal" mix is
caught only by the segregation-class-conflict table, whose results are
Error but overridable. -/
theorem C10_all_contain_IS_no_intrinsic_results :
    (∀ (route : String) (cables : List Cable),
       (∀ c ∈ cables, isIntrinsicallySafe c = true) →
       check_intrinsic_safety_separation route cables = []) ∧
    (check_intrinsic_safety_separation "R"
        [ ⟨some 1, "A", none, none, none, none, some "R", some "IS Signal"⟩
        , ⟨some 2, "B", none, none, none, none, some "R", some "Non-IS Signal"⟩
        ] = [] ∧
     check_segregation_class_conflicts "R"
        [ ⟨some 1, "A", none, none, none, none, some "R", some "IS Signal"⟩
        , ⟨some 2, "B", none, none, none, none, some "R", some "Non-IS Signal"⟩
        ] ≠ [] ∧
     ∀ r ∈ check_segregation_class_conflicts "R"
        [ ⟨some 1, "A", none, none, none, none, some "R", some "IS Signal"⟩
        , ⟨some 2, "B", none, none, none, none, some "R", some "Non-IS Signal"⟩
        ], r.severity = .Error ∧ r.override_allowed = true) := by
  constructor
  · intro route cables hall
    unfold check_intrinsic_safety_separation
    have hnil : cables.filter isNonISCable = [] := by
      rw [List.filter_eq_nil_iff]
      intro c hc
      rw [isNonISCable_eq_not, hall c hc]
      simp
    rw [hnil]
    simp
  · exact ⟨by decide, by decide, by decide⟩

/-- Witness for C10: a singleton group whose only cable has class
"IS Signal" yields no intrinsic-safety result. -/
theorem C10_witness :
    check_intrinsic_safety_separation "R"
      [⟨some 1, "A", none, none, none, none, some "R", some "IS Signal"⟩] =
      [] :=
  C10_all_contain_IS_no_intrinsic_results.1 "R"
    [⟨some 1, "A", none, none, none, none, some "R", some "IS Signal"⟩]
    (by decide)

/-- A Power-function cable sharing route "R" (concrete test data). -/
def cabPower : Cable :=
  ⟨some 1, "P1", some "Power", none, none, none, some "R", none⟩

/-- A Signal-function cable sharing route "R" (concrete test data). -/
def cabSignal : Cable :=
  ⟨some 2, "S1", some "Signal", none, none, none, some "R", none⟩

/-- A cable on route "R" with no function recorded (concrete test data). -/
def cabNoFn : Cable :=
  ⟨some 3, "N1", none, none, none, none, some "R", none⟩

/-- Counterexample to C3 as stated: in a route group holding a Power
cable, a Signal cable and a cable with no function, the power/signal
check emits results only for the first two — the function-less cable is
never flagged, though the claim says every cable in the group is. -/
theorem C3_counterexample :
    (isPowerCable cabPower = true ∧ isSignalCable cabSignal = true ∧
      cabNoFn ∈ [cabPower, cabSignal, cabNoFn]) ∧
    (∀ r ∈ check_power_signal_separation "R" [cabPower, cabSignal, cabNoFn],
      r.cable_tag ≠ "N1") ∧
    (check_power_signal_separation "R" [cabPower, cabSignal, cabNoFn]).length
      = 2 := by
  decide

/-- C3 (amended): in a route group holding at least one Power/Lighting
cable and at least one Signal/Control/Communication cable, the
power/signal check emits a Warning with `override_allowed = true` for
exactly the cables of those two categories; cables whose function is
absent or outside both categories receive nothing. -/
theorem C3_power_signal_flags_only_categorised
    (route : String) (cables : List Cable)
    (hp : ∃ c ∈ cables, isPowerCable c = true)
    (hs : ∃ c ∈ cables, isSignalCable c = true) :
    (∀ c ∈ cables, isPowerCable c = true ∨ isSignalCable c = true →
       powerSignalResult route c ∈
         check_power_signal_separation route cables) ∧
    (∀ r ∈ check_power_signal_separation route cables,
       r.severity = .Warning ∧ r.override_allowed = true ∧
       ∃ c ∈ cables, (isPowerCable c = true ∨ isSignalCable c = true) ∧
         r = powerSignalResult route c) := by
  obtain ⟨a, ha, hap⟩ := hp
  obtain ⟨b, hb, hbs⟩ := hs
  have hamem : a ∈ cables.filter isPowerCable := List.mem_filter.mpr ⟨ha, hap⟩
  have hbmem : b ∈ cables.filter isSignalCable := List.mem_filter.mpr ⟨hb, hbs⟩
  have hcond : (!(cables.filter isPowerCable).isEmpty &&
      !(cables.filter isSignalCable).isEmpty) = true := by
    cases h1 : (cables.filter isPowerCable).isEmpty with
    | true => rw [List.isEmpty_iff.mp h1] at hamem; simp at hamem
    | false =>
      cases h2 : (cables.filter isSignalCable).isEmpty with
      | true => rw [List.isEmpty_iff.mp h2] at hbmem; simp at hbmem
      | false => rfl
  constructor
  · intro c hc hcat
    unfold check_power_signal_separation
    dsimp only
    rw [if_pos hcond]
    refine List.mem_map.mpr ⟨c, List.mem_append.mpr ?_, rfl⟩
    cases hcat with
    | inl h => exact Or.inl (List.mem_filter.mpr ⟨hc, h⟩)
    | inr h => exact Or.inr (List.mem_filter.mpr ⟨hc, h⟩)
  · intro r hr
    unfold check_power_signal_separation at hr
    dsimp only at hr
    rw [if_pos hcond] at hr
    obtain ⟨c, hcm, rfl⟩ := List.mem_map.mp hr
    rcases List.mem_append.mp hcm with h | h
    · obtain ⟨hc, hpred⟩ := List.mem_filter.mp h
      exact ⟨rfl, rfl, c, hc, Or.inl hpred, rfl⟩
    · obtain ⟨hc, hpred⟩ := List.mem_filter.mp h
      exact ⟨rfl, rfl, c, hc, Or.inr hpred, rfl⟩

/-- Witness for the amended C3 at a concrete Power/Signal pair. -/
theorem C3_witness :
    powerSignalResult "R" cabPower ∈
      check_power_signal_separation "R" [cabPower, cabSignal] :=
  (C3_power_signal_flags_only_categorised "R" [cabPower, cabSignal]
    ⟨cabPower, by decide, by decide⟩ ⟨cabSignal, by decide, by decide⟩).1
    cabPower (by decide) (Or.inl (by decide))

/-- The claim's lowest voltage bucket: a nominal voltage is present and is
at most 50 V. -/
def claimLowVoltage (c : Cable) : Bool :=
  c.voltage.any (fun v => v ≤ 50)

/-- The claim's two highest voltage buckets combined (600–1000 V or
above 1000 V): a nominal voltage is present and exceeds 600 V. -/
def claimHighVoltage (c : Cable) : Bool :=
  c.voltage.any (fun v => 600 < v)

/-- A voltage is bucketed "Low Voltage (<50V)" exactly when it is ≤ 50. -/
theorem voltageClassOf_low_iff (v : ℚ) :
    voltageClassOf v = "Low Voltage (<50V)" ↔ v ≤ 50 := by
  unfold voltageClassOf
  split_ifs with h1 h2 h3 <;> simp_all

/-- A voltage is bucketed "High Voltage (600-1000V)" or
"Extra High Voltage (>1000V)" exactly when it exceeds 600. -/
theorem voltageClassOf_high_iff (v : ℚ) :
    (voltageClassOf v = "High Voltage (600-1000V)" ∨
     voltageClassOf v = "Extra High Voltage (>1000V)") ↔ 600 < v := by
  unfold voltageClassOf
  split_ifs with h1 h2 h3 <;> simp_all <;> linarith

/-- `any` distributes over a pointwise `||`. -/
theorem list_any_or {α : Type} (l : List α) (p q : α → Bool) :
    l.any (fun a => p a || q a) = (l.any p || l.any q) := by
  induction l with
  | nil => rfl
  | cons a t ih =>
    simp [List.any_cons, ih, Bool.or_assoc, Bool.or_comm, Bool.or_left_comm]

/-- The code's "low class present" key test agrees with the claim's
bucket predicate. -/
theorem hasVoltageClass_low_eq (cables : List Cable) :
    hasVoltageClass cables "Low Voltage (<50V)" =
      cables.any claimLowVoltage := by
  unfold hasVoltageClass claimLowVoltage
  congr 1
  funext c
  cases hv : c.voltage with
  | none => rfl
  | some v =>
    simp only [Option.any_some, decide_eq_decide]
    exact voltageClassOf_low_iff v

/-- The code's "high or extra-high class present" key test agrees with the
claim's combined upper-bucket predicate. -/
theorem hasVoltageClass_high_eq (cables : List Cable) :
    (hasVoltageClass cables "High Voltage (600-1000V)" ||
     hasVoltageClass cables "Extra High Voltage (>1000V)") =
      cables.any claimHighVoltage := by
  unfold hasVoltageClass claimHighVoltage
  rw [← list_any_or]
  congr 1
  funext c
  cases hv : c.voltage with
  | none => rfl
  | some v =>
    rw [Bool.eq_iff_iff]
    simp only [Option.any_some, Bool.or_eq_true, decide_eq_true_eq]
    exact voltageClassOf_high_iff v

/-- C5: the voltage-class check flags every cable of the route group with
an overridable Error exactly when the group holds a cable of the lowest
bucket (≤ 50 V) and a cable of one of the two highest buckets (> 600 V);
every other combination of buckets produces no result at all. -/
theorem C5_voltage_level_separation (route : String) (cables : List Cable) :
    ((∃ c ∈ cables, claimLowVoltage c = true) ∧
     (∃ c ∈ cables, claimHighVoltage c = true) →
       check_voltage_level_separation route cables =
         cables.map (voltageLevelResult route)) ∧
    (¬((∃ c ∈ cables, claimLowVoltage c = true) ∧
       (∃ c ∈ cables, claimHighVoltage c = true)) →
       check_voltage_level_separation route cables = []) ∧
    (∀ c : Cable, (voltageLevelResult route c).severity = .Error ∧
       (voltageLevelResult route c).override_allowed = true) := by
  refine ⟨?_, ?_, fun c => ⟨rfl, rfl⟩⟩
  · rintro ⟨hl, hh⟩
    have hlow : hasVoltageClass cables "Low Voltage (<50V)" = true := by
      rw [hasVoltageClass_low_eq]
      exact List.any_eq_true.mpr hl
    have hhigh : (hasVoltageClass cables "High Voltage (600-1000V)" ||
        hasVoltageClass cables "Extra High Voltage (>1000V)") = true := by
      rw [hasVoltageClass_high_eq]
      exact List.any_eq_true.mpr hh
    have hgc : voltageGroupCount cables > 1 := by
      unfold voltageGroupCount
      have hhigh' := hhigh
      rw [Bool.or_eq_true] at hhigh'
      rcases hhigh' with h3 | h4
      · cases hm : hasVoltageClass cables "Medium Voltage (50-600V)" <;>
          cases hx : hasVoltageClass cables "Extra High Voltage (>1000V)" <;>
          simp [List.filter, hlow, h3, hm, hx]
      · cases hm : hasVoltageClass cables "Medium Voltage (50-600V)" <;>
          cases hhv : hasVoltageClass cables "High Voltage (600-1000V)" <;>
          simp [List.filter, hlow, h4, hm, hhv]
    unfold check_voltage_level_separation
    dsimp only
    rw [if_pos hgc, hlow, hhigh]
    simp
  · intro hn
    unfold check_voltage_level_separation
    by_cases hg : voltageGroupCount cables > 1
    · rw [if_pos hg]
      dsimp only
      cases hlowB : hasVoltageClass cables "Low Voltage (<50V)" with
      | false => simp
      | true =>
        cases hhB : (hasVoltageClass cables "High Voltage (600-1000V)" ||
            hasVoltageClass cables "Extra High Voltage (>1000V)") with
        | false => simp
        | true =>
          exact absurd
            ⟨List.any_eq_true.mp ((hasVoltageClass_low_eq cables) ▸ hlowB),
             List.any_eq_true.mp ((hasVoltageClass_high_eq cables) ▸ hhB)⟩ hn
    · rw [if_neg hg]

/-- A 24 V cable on route "R" (concrete test data). -/
def cabLowV : Cable :=
  ⟨some 4, "LV1", none, some 24, none, none, some "R", none⟩

/-- A 4160 V cable on route "R" (concrete test data). -/
def cabHighV : Cable :=
  ⟨some 5, "HV1", none, some 4160, none, none, some "R", none⟩

/-- Witness for C5: a 24 V / 4160 V pair triggers the check and every
cable of the group is flagged. -/
theorem C5_witness :
    check_voltage_level_separation "R" [cabLowV, cabHighV] =
      [cabLowV, cabHighV].map (voltageLevelResult "R") :=
  (C5_voltage_level_separation "R" [cabLowV, cabHighV]).1
    ⟨⟨cabLowV, List.mem_cons_self _ _,
        by norm_num [claimLowVoltage, cabLowV]⟩,
     ⟨cabHighV, List.mem_cons_of_mem _ (List.mem_cons_self _ _),
        by norm_num [claimHighVoltage, cabHighV]⟩⟩

/-- An unsaved cable (`id = None`) tagged "C-001" (concrete test data). -/
def dupNoIdA : Cable := ⟨none, "C-001", none, none, none, none, none, none⟩

/-- A second unsaved cable tagged "c-001" (concrete test data). -/
def dupNoIdB : Cable := ⟨none, "c-001", none, none, none, none, none, none⟩

/-- Counterexample to C6 as stated: two distinct unsaved cables (both with
`id = None`) carry case-insensitively equal non-blank tags, yet the
duplicate check reports nothing, because the source excludes "self" by
comparing the `id` field value, not object identity. -/
theorem C6_counterexample :
    (trimChars dupNoIdA.tag.data).isEmpty = false ∧
    dupNoIdB ∈ [dupNoIdA, dupNoIdB] ∧
    dupNoIdB ≠ dupNoIdA ∧
    eqIgnoreAsciiCase dupNoIdB.tag dupNoIdA.tag = true ∧
    validate_duplicate_tag dupNoIdA [dupNoIdA, dupNoIdB] = [] := by
  decide

/-- C6 (amended): for a cable with a non-blank trimmed tag the duplicate
check reports exactly one overridable Error iff some cable of the set has
a case-insensitively equal tag and a different `id` field value (so the
cable itself is skipped, but so is any cable sharing its id, including
two unsaved cables whose ids are both absent); a blank tag reports
nothing. -/
theorem C6_duplicate_tag_by_id_value (cable : Cable)
    (all_cables : List Cable) :
    ((trimChars cable.tag.data).isEmpty = true →
       validate_duplicate_tag cable all_cables = []) ∧
    ((trimChars cable.tag.data).isEmpty = false →
       ((∃ other ∈ all_cables, eqIgnoreAsciiCase other.tag cable.tag = true ∧
           other.id ≠ cable.id) →
          validate_duplicate_tag cable all_cables =
            [duplicateTagResult cable]) ∧
       (¬(∃ other ∈ all_cables,
           eqIgnoreAsciiCase other.tag cable.tag = true ∧
           other.id ≠ cable.id) →
          validate_duplicate_tag cable all_cables = [])) ∧
    (duplicateTagResult cable).severity = .Error ∧
    (duplicateTagResult cable).override_allowed = true := by
  refine ⟨?_, ?_, rfl, rfl⟩
  · intro hblank
    unfold validate_duplicate_tag
    rw [if_pos hblank]
  · intro hblank
    unfold validate_duplicate_tag
    rw [if_neg (by rw [hblank]; simp)]
    dsimp only
    constructor
    · rintro ⟨other, hmem, htag, hid⟩
      have hfmem : other ∈ all_cables.filter (fun o =>
          eqIgnoreAsciiCase o.tag cable.tag && decide (o.id ≠ cable.id)) :=
        List.mem_filter.mpr ⟨hmem, by rw [htag]; simp [hid]⟩
      cases he : (all_cables.filter (fun o =>
          eqIgnoreAsciiCase o.tag cable.tag &&
            decide (o.id ≠ cable.id))).isEmpty with
      | true => rw [List.isEmpty_iff.mp he] at hfmem; simp at hfmem
      | false => simp
    · intro hne
      have hfil : all_cables.filter (fun o =>
          eqIgnoreAsciiCase o.tag cable.tag && decide (o.id ≠ cable.id)) =
          [] := by
        rw [List.filter_eq_nil_iff]
        intro o ho hp
        rw [Bool.and_eq_true] at hp
        exact hne ⟨o, ho, hp.1, of_decide_eq_true hp.2⟩
      rw [hfil]
      simp

/-- A saved cable with id 1 tagged "C-001" (concrete test data). -/
def dupIdA : Cable := ⟨some 1, "C-001", none, none, none, none, none, none⟩

/-- A saved cable with id 2 tagged "c-001" (concrete test data). -/
def dupIdB : Cable := ⟨some 2, "c-001", none, none, none, none, none, none⟩

/-- Witness for the amended C6: two saved cables with distinct ids and
case-insensitively equal tags yield exactly one duplicate Error. -/
theorem C6_witness :
    validate_duplicate_tag dupIdA [dupIdA, dupIdB] =
      [duplicateTagResult dupIdA] :=
  ((C6_duplicate_tag_by_id_value dupIdA [dupIdA, dupIdB]).2.1
    (by decide)).1 ⟨dupIdB, by decide, by decide, by decide⟩

/-- `dropWhile` is the identity when no element satisfies the predicate. -/
theorem dropWhile_eq_self_of {α : Type} (p : α → Bool) (l : List α)
    (h : ∀ c ∈ l, p c = false) : l.dropWhile p = l := by
  cases l with
  | nil => rfl
  | cons a t =>
    simp [List.dropWhile_cons, h a (List.mem_cons_self a t)]

/-- `trimChars` is the identity on strings without whitespace. -/
theorem trimChars_eq_self (l : List Char)
    (h : ∀ c ∈ l, isWsChar c = false) : trimChars l = l := by
  unfold trimChars
  rw [dropWhile_eq_self_of _ _ h,
    dropWhile_eq_self_of _ _ (fun c hc => h c (List.mem_reverse.mp hc)),
    List.reverse_reverse]

/-- Rebuilding a string from its character list is the identity. -/
theorem string_mk_data (s : String) : (⟨s.data⟩ : String) = s := by
  cases s
  rfl

/-- `strUpperTrim` fixes a string whose characters are unchanged by ASCII
upper-casing and are not whitespace. -/
theorem strUpperTrim_eq_self (s : String)
    (hup : ∀ c ∈ s.data, asciiUpperChar c = c)
    (hws : ∀ c ∈ s.data, isWsChar c = false) : strUpperTrim s = s := by
  unfold strUpperTrim
  have hmap : s.data.map asciiUpperChar = s.data := by
    conv_rhs => rw [← List.map_id s.data]
    exact List.map_congr_left hup
  rw [hmap, trimChars_eq_self _ hws, string_mk_data]

/-- A digit character is unchanged by ASCII upper-casing. -/
theorem asciiUpperChar_digit (c : Char) (h : isDigitChar c = true) :
    asciiUpperChar c = c := by
  simp only [isDigitChar, decide_eq_true_eq] at h
  unfold asciiUpperChar
  rw [if_neg]
  omega

/-- A digit character is not whitespace. -/
theorem isWsChar_digit (c : Char) (h : isDigitChar c = true) :
    isWsChar c = false := by
  simp only [isDigitChar, decide_eq_true_eq] at h
  simp only [isWsChar, decide_eq_false_iff_not]
  omega

/-- A digit character differs from any character with a code outside
48–57. -/
theorem digit_ne (c : Char) (h : isDigitChar c = true) (d : Char)
    (hd : d.toNat < 48 ∨ 57 < d.toNat) : c ≠ d := by
  simp only [isDigitChar, decide_eq_true_eq] at h
  intro he
  subst he
  omega

/-- A pattern starting with `p` never occurs in a string avoiding `p`. -/
theorem containsSub_eq_false (p : Char) (ps : List Char) (hay : List Char)
    (h : ∀ c ∈ hay, c ≠ p) : containsSub (p :: ps) hay = false := by
  induction hay with
  | nil => rfl
  | cons c t ih =>
    have hcp : (p = c) = False := by
      simp [Ne.symm (h c (List.mem_cons_self c t))]
    simp [containsSub, leadsWith, hcp,
      ih (fun x hx => h x (List.mem_cons_of_mem _ hx))]

/-- A single-character pattern occurs wherever the character does. -/
theorem containsSub_singleton_of_mem (c : Char) (hay : List Char)
    (h : c ∈ hay) : containsSub [c] hay = true := by
  induction hay with
  | nil => simp at h
  | cons a t ih =>
    rcases List.mem_cons.mp h with rfl | hmem
    · simp [containsSub, leadsWith]
    · simp [containsSub, leadsWith, ih hmem]

/-- An all-digit list is accepted by the modelled `parse::<i32>` when its
value fits. -/
theorem parseI32Ok_digits (l : List Char) (hne : l ≠ [])
    (hdig : l.all isDigitChar = true)
    (hrange : digitsToNat l ≤ 2147483647) : parseI32Ok l = true := by
  cases l with
  | nil => exact absurd rfl hne
  | cons c rest =>
    have hc : isDigitChar c = true := by
      rw [List.all_cons, Bool.and_eq_true] at hdig
      exact hdig.1
    unfold parseI32Ok
    dsimp only
    rw [if_neg, if_neg]
    · simp only [Bool.and_eq_true]
      exact ⟨hdig, by simpa using hrange⟩
    · exact digit_ne c hc '-' (by decide)
    · exact digit_ne c hc '+' (by decide)

/-- Every character of a digit string together with a leading "#" keeps
ASCII upper-casing and whitespace-freedom. -/
theorem hash_digits_chars (n : String)
    (hdig : ∀ c ∈ n.data, isDigitChar c = true) :
    (∀ c ∈ ("#" ++ n).data, asciiUpperChar c = c) ∧
    (∀ c ∈ ("#" ++ n).data, isWsChar c = false) := by
  have hd : ("#" ++ n).data = '#' :: n.data := by
    rw [String.data_append]
    rfl
  rw [hd]
  constructor
  · intro c hc
    rcases List.mem_cons.mp hc with rfl | hmem
    · decide
    · exact asciiUpperChar_digit c (hdig c hmem)
  · intro c hc
    rcases List.mem_cons.mp hc with rfl | hmem
    · decide
    · exact isWsChar_digit c (hdig c hmem)

/-- C8: the resistance lookup first normalizes the size string — ASCII
upper-cased and trimmed; "#N" becomes "N AWG"; a bare integer "N" becomes
"N AWG"; strings containing "AWG" or "MCM" pass through — and
`calculate_voltage_drop` fails exactly when the normalized string misses
the fixed 23-entry table, the error carrying the original input string. -/
theorem C8_normalization_and_lookup_miss :
    conductor_resistance.length = 23 ∧
    (∀ s : String, strContainsSub (strUpperTrim s) "AWG" = true →
       normalize_conductor_size s = strUpperTrim s) ∧
    (∀ s : String, strContainsSub (strUpperTrim s) "MCM" = true →
       normalize_conductor_size s = strUpperTrim s) ∧
    (∀ n : String, n.data ≠ [] →
       (∀ c ∈ n.data, isDigitChar c = true) →
       normalize_conductor_size ("#" ++ n) = n ++ " AWG") ∧
    (∀ n : String, n.data ≠ [] →
       (∀ c ∈ n.data, isDigitChar c = true) →
       digitsToNat n.data ≤ 2147483647 →
       normalize_conductor_size n = n ++ " AWG") ∧
    (∀ calcIn : VoltageDropCalculation,
       ((∃ e, calculate_voltage_drop calcIn = Except.error e) ↔
         conductor_resistance.lookup
           (normalize_conductor_size calcIn.conductor_size) = none) ∧
       (∀ e, calculate_voltage_drop calcIn = Except.error e →
         e = "Unknown conductor size: " ++ calcIn.conductor_size)) := by
  refine ⟨rfl, ?_, ?_, ?_, ?_, ?_⟩
  · intro s h
    unfold normalize_conductor_size
    dsimp only
    rw [if_pos h]
  · intro s h
    unfold normalize_conductor_size
    dsimp only
    by_cases h1 : strContainsSub (strUpperTrim s) "AWG" = true
    · rw [if_pos h1]
    · rw [if_neg h1, if_pos h]
  · intro n hne hdig
    obtain ⟨hup, hws⟩ := hash_digits_chars n hdig
    have hfix : strUpperTrim ("#" ++ n) = "#" ++ n :=
      strUpperTrim_eq_self _ hup hws
    have hd : ("#" ++ n).data = '#' :: n.data := by
      rw [String.data_append]; rfl
    have hAWG : strContainsSub ("#" ++ n) "AWG" = false := by
      unfold strContainsSub
      rw [hd, show ("AWG" : String).data = ['A', 'W', 'G'] from rfl]
      refine containsSub_eq_false _ _ _ ?_
      intro c hc
      rcases List.mem_cons.mp hc with rfl | hmem
      · decide
      · exact digit_ne c (hdig c hmem) 'A' (by decide)
    have hMCM : strContainsSub ("#" ++ n) "MCM" = false := by
      unfold strContainsSub
      rw [hd, show ("MCM" : String).data = ['M', 'C', 'M'] from rfl]
      refine containsSub_eq_false _ _ _ ?_
      intro c hc
      rcases List.mem_cons.mp hc with rfl | hmem
      · decide
      · exact digit_ne c (hdig c hmem) 'M' (by decide)
    have hHash : strContainsSub ("#" ++ n) "#" = true := by
      unfold strContainsSub
      rw [hd, show ("#" : String).data = ['#'] from rfl]
      exact containsSub_singleton_of_mem _ _ (List.mem_cons_self _ _)
    have hfil : ("#" ++ n).data.filter (fun c => c ≠ '#') = n.data := by
      rw [hd]
      rw [List.filter_cons]
      rw [if_neg (by simp)]
      refine List.filter_eq_self.mpr ?_
      intro c hc
      simpa using digit_ne c (hdig c hc) '#' (by decide)
    unfold normalize_conductor_size
    dsimp only
    rw [hfix, if_neg (by rw [hAWG]; simp), if_neg (by rw [hMCM]; simp),
      if_pos hHash, hfil,
      trimChars_eq_self _ (fun c hc => isWsChar_digit c (hdig c hc)),
      string_mk_data]
  · intro n hne hdig hrange
    have hfix : strUpperTrim n = n :=
      strUpperTrim_eq_self _
        (fun c hc => asciiUpperChar_digit c (hdig c hc))
        (fun c hc => isWsChar_digit c (hdig c hc))
    have hAWG : strContainsSub n "AWG" = false := by
      unfold strContainsSub
      rw [show ("AWG" : String).data = ['A', 'W', 'G'] from rfl]
      exact containsSub_eq_false _ _ _
        (fun c hc => digit_ne c (hdig c hc) 'A' (by decide))
    have hMCM : strContainsSub n "MCM" = false := by
      unfold strContainsSub
      rw [show ("MCM" : String).data = ['M', 'C', 'M'] from rfl]
      exact containsSub_eq_false _ _ _
        (fun c hc => digit_ne c (hdig c hc) 'M' (by decide))
    have hHash : strContainsSub n "#" = false := by
      unfold strContainsSub
      rw [show ("#" : String).data = ['#'] from rfl]
      exact containsSub_eq_false _ _ _
        (fun c hc => digit_ne c (hdig c hc) '#' (by decide))
    have hparse : parseI32Ok n.data = true :=
      parseI32Ok_digits n.data hne (List.all_eq_true.mpr hdig) hrange
    unfold normalize_conductor_size
    dsimp only
    rw [hfix, if_neg (by rw [hAWG]; simp), if_neg (by rw [hMCM]; simp),
      if_neg (by rw [hHash]; simp), if_pos hparse]
  · intro calcIn
    cases hl : conductor_resistance.lookup
        (normalize_conductor_size calcIn.conductor_size) with
    | none =>
      have hg : get_conductor_resistance calcIn.conductor_size
          calcIn.material =
          Except.error ("Unknown conductor size: " ++
            calcIn.conductor_size) := by
        unfold get_conductor_resistance
        rw [hl]
      have hc : calculate_voltage_drop calcIn =
          Except.error ("Unknown conductor size: " ++
            calcIn.conductor_size) := by
        unfold calculate_voltage_drop
        rw [hg]
      refine ⟨⟨fun _ => rfl, fun _ => ⟨_, hc⟩⟩, ?_⟩
      intro e he
      rw [hc] at he
      injection he with he'
      exact he'.symm
    | some p =>
      obtain ⟨cu, al⟩ := p
      have hg : get_conductor_resistance calcIn.conductor_size
          calcIn.material = Except.ok
            (match calcIn.material with
             | .Copper => cu
             | .Aluminum => al) := by
        unfold get_conductor_resistance
        rw [hl]
      have hc := calculate_voltage_drop_ok calcIn _ hg
      refine ⟨⟨?_, ?_⟩, ?_⟩
      · rintro ⟨e, he⟩
        rw [hc] at he
        exact absurd he (by simp)
      · intro h
        exact absurd h (by simp)
      · intro e he
        rw [hc] at he
        exact absurd he (by simp)

/-- Witness for C8: "#10" normalizes to "10 AWG", and a voltage-drop run
with an unknown size fails with the original string in the message. -/
theorem C8_witness :
    normalize_conductor_size "#10" = "10 AWG" ∧
    ∀ e, calculate_voltage_drop
        { voltage := 120, current := 20, distance := 100
        , conductor_size := "9 AWG", material := .Copper
        , power_factor := 0.85, number_of_conductors := 2 } =
        Except.error e →
      e = "Unknown conductor size: " ++ "9 AWG" :=
  ⟨C8_normalization_and_lookup_miss.2.2.2.1 "10" (by decide) (by decide),
   (C8_normalization_and_lookup_miss.2.2.2.2.2
     { voltage := 120, current := 20, distance := 100
     , conductor_size := "9 AWG", material := .Copper
     , power_factor := 0.85, number_of_conductors := 2 }).2⟩

/-- A Power cable on route "R1" (concrete test data). -/
def routeCabA : Cable :=
  ⟨some 11, "A", some "Power", none, none, none, some "R1", none⟩

/-- A Signal cable on route "R1" (concrete test data). -/
def routeCabB : Cable :=
  ⟨some 12, "B", some "Signal", none, none, none, some "R1", none⟩

/-- A Power cable on route "R2" (concrete test data). -/
def routeCabC : Cable :=
  ⟨some 13, "C", some "Power", none, none, none, some "R2", none⟩

/-- A Signal cable on route "R2" (concrete test data). -/
def routeCabD : Cable :=
  ⟨some 14, "D", some "Signal", none, none, none, some "R2", none⟩

/-- Counterexample to C7 as stated: the source iterates the route-group
`HashMap` in unspecified order, so two runs over the same cable list may
visit the groups as ["R1", "R2"] or as ["R2", "R1"] — both legitimate
iteration orders of the same key set — and then return different
`results` lists (the per-route segregation findings swap blocks). -/
theorem C7_counterexample :
    ["R1", "R2"].Perm
      (routeKeys [routeCabA, routeCabB, routeCabC, routeCabD]) ∧
    ["R2", "R1"].Perm
      (routeKeys [routeCabA, routeCabB, routeCabC, routeCabD]) ∧
    validate_all_cables [routeCabA, routeCabB, routeCabC, routeCabD]
        ["R1", "R2"] 0 ≠
      validate_all_cables [routeCabA, routeCabB, routeCabC, routeCabD]
        ["R2", "R1"] 0 := by
  decide

/-- C7 (amended): `validate_all_cables` is deterministic up to the
`HashMap` iteration order and the clock: for any two iteration orders of
the route-key set and any two timestamps, the two runs agree on
`total_cables` and all severity counts, their `results` lists are
permutations of each other, and `validation_time` is exactly the clock
value of the respective run; the input cable list is never modified (the
model is a pure function of it). -/
theorem C7_deterministic_up_to_order (cables : List Cable)
    (o1 o2 : List String) (t1 t2 : Int)
    (h1 : o1.Perm (routeKeys cables)) (h2 : o2.Perm (routeKeys cables)) :
    (validate_all_cables cables o1 t1).total_cables =
      (validate_all_cables cables o2 t2).total_cables ∧
    (validate_all_cables cables o1 t1).error_count =
      (validate_all_cables cables o2 t2).error_count ∧
    (validate_all_cables cables o1 t1).warning_count =
      (validate_all_cables cables o2 t2).warning_count ∧
    (validate_all_cables cables o1 t1).info_count =
      (validate_all_cables cables o2 t2).info_count ∧
    (validate_all_cables cables o1 t1).results.Perm
      (validate_all_cables cables o2 t2).results ∧
    (validate_all_cables cables o1 t1).validation_time = t1 := by
  have hseg : (validate_segregation_rules cables o1).Perm
      (validate_segregation_rules cables o2) := by
    unfold validate_segregation_rules
    exact (h1.trans h2.symm).flatMap_right _
  have hres : ((cables.flatMap (fun cable => validate_cable cable cables)) ++
      validate_segregation_rules cables o1).Perm
      ((cables.flatMap (fun cable => validate_cable cable cables)) ++
        validate_segregation_rules cables o2) :=
    List.Perm.append_left _ hseg
  exact ⟨rfl, List.Perm.countP_eq _ hres, List.Perm.countP_eq _ hres,
    List.Perm.countP_eq _ hres, hres, rfl⟩

/-- Witness for the amended C7 at the concrete four-cable project, with
the two route orders and two distinct timestamps. -/
theorem C7_witness :
    (validate_all_cables [routeCabA, routeCabB, routeCabC, routeCabD]
        ["R1", "R2"] 0).total_cables =
      (validate_all_cables [routeCabA, routeCabB, routeCabC, routeCabD]
        ["R2", "R1"] 5).total_cables ∧
    (validate_all_cables [routeCabA, routeCabB, routeCabC, routeCabD]
        ["R1", "R2"] 0).error_count =
      (validate_all_cables [routeCabA, routeCabB, routeCabC, routeCabD]
        ["R2", "R1"] 5).error_count ∧
    (validate_all_cables [routeCabA, routeCabB, routeCabC, routeCabD]
        ["R1", "R2"] 0).warning_count =
      (validate_all_cables [routeCabA, routeCabB, routeCabC, routeCabD]
        ["R2", "R1"] 5).warning_count ∧
    (validate_all_cables [routeCabA, routeCabB, routeCabC, routeCabD]
        ["R1", "R2"] 0).info_count =
      (validate_all_cables [routeCabA, routeCabB, routeCabC, routeCabD]
        ["R2", "R1"] 5).info_count ∧
    (validate_all_cables [routeCabA, routeCabB, routeCabC, routeCabD]
        ["R1", "R2"] 0).results.Perm
      (validate_all_cables [routeCabA, routeCabB, routeCabC, routeCabD]
        ["R2", "R1"] 5).results ∧
    (validate_all_cables [routeCabA, routeCabB, routeCabC, routeCabD]
        ["R1", "R2"] 0).validation_time = 0 :=
  C7_deterministic_up_to_order [routeCabA, routeCabB, routeCabC, routeCabD]
    ["R1", "R2"] ["R2", "R1"] 0 5 (by decide) (by decide)

end CableForge
